import Mathlib

/-!
# Verification of the pytcsii stimulation timing/parameter model

Shallow embedding of `src/pytcsii/pytcsii.py`: the live serial-command
sequencer (`tcsii`) and the protocol-file generator
(`tcsii_protocol_generator`).  Python numbers are modelled by `ℤ` where the
source works with integers and by `ℚ` where the source performs float
arithmetic; serial writes are collected into a list of strings; Python
runtime exceptions are modelled by an `Option PyErr` result component, and
attributes that a method may read before any assignment are modelled as
`Option` fields of the session state.
-/

/-- Python runtime errors that the embedded code can raise. -/
inductive PyErr
  | attributeError
  | indexError
  | assertionError
  | zeroDivisionError
deriving DecidableEq, Repr

/-- Python `int()` applied to a rational: truncation toward zero. -/
def pyTrunc (q : ℚ) : ℤ :=
  if 0 ≤ q then ⌊q⌋ else ⌈q⌉

/-- Little-endian decimal digits of `n`, with structural fuel so that the
kernel can evaluate it.  `decDigits` below supplies enough fuel. -/
def decDigitsAux : ℕ → ℕ → List ℕ
  | 0, _ => []
  | _ + 1, 0 => []
  | fuel + 1, n + 1 => (n + 1) % 10 :: decDigitsAux fuel ((n + 1) / 10)

/-- Little-endian decimal digits of `n` (empty for `0`). -/
def decDigits (n : ℕ) : List ℕ := decDigitsAux n n

/-- Model of Python `str` on a non-negative integer: the decimal numeral. -/
def natStr (n : ℕ) : String :=
  if n = 0 then "0"
  else String.mk ((decDigits n).reverse.map (fun d => Char.ofNat (d + 48)))

/-- Model of Python `str` on an integer (`-` sign for negatives). -/
def intStr (n : ℤ) : String :=
  if n < 0 then "-" ++ natStr n.natAbs else natStr n.natAbs

/-- Python `str.zfill`: left-pad with `'0'` up to `width`, keeping a leading
sign in front of the padding; never truncates. -/
def zfill (s : String) (width : ℕ) : String :=
  if width ≤ s.length then s
  else
    let pad := List.replicate (width - s.length) '0'
    match s.data with
    | [] => String.mk pad
    | c :: rest =>
      if c = '-' ∨ c = '+' then String.mk (c :: (pad ++ rest))
      else String.mk (pad ++ (c :: rest))

/-- Decimal decoding of a digit string (the spec's `decode`). -/
def decodeDec (s : String) : ℕ :=
  s.data.foldl (fun a c => 10 * a + (c.toNat - 48)) 0

/-- `tcsii.format_temp`: `str(temp*10).zfill(zero_fill_len)`. -/
def format_temp (temp : ℤ) (zero_fill_len : ℕ := 3) : String :=
  zfill (intStr (temp * 10)) zero_fill_len

/-- `tcsii.format_ms`: `str(ms).zfill(zero_fill_len)`. -/
def format_ms (ms : ℤ) (zero_fill_len : ℕ := 5) : String :=
  zfill (intStr ms) zero_fill_len

/-! ## Basic facts about the decimal encoder -/

theorem decDigitsAux_eq_digits :
    ∀ (fuel n : ℕ), n ≤ fuel → decDigitsAux fuel n = Nat.digits 10 n := by
  intro fuel
  induction fuel with
  | zero =>
    intro n hn
    interval_cases n
    simp [decDigitsAux]
  | succ f ih =>
    intro n hn
    match n with
    | 0 => simp [decDigitsAux]
    | m + 1 =>
      rw [decDigitsAux, Nat.digits_def' (by norm_num : (1:ℕ) < 10) (Nat.succ_pos m)]
      have hdiv : (m + 1) / 10 ≤ f := by
        have h1 : (m + 1) / 10 < m + 1 := Nat.div_lt_self (Nat.succ_pos m) (by norm_num)
        omega
      rw [ih _ hdiv]

theorem decDigits_eq_digits (n : ℕ) : decDigits n = Nat.digits 10 n :=
  decDigitsAux_eq_digits n n le_rfl

theorem charVal (d : ℕ) (hd : d < 10) : (Char.ofNat (d + 48)).toNat - 48 = d := by
  interval_cases d <;> decide

/-- Folding the decimal decode over a reversed digit list recovers the
value, starting from any accumulator. -/
theorem foldl_decode_reverse (l : List ℕ) :
    ∀ a : ℕ, l.reverse.foldl (fun a d => 10 * a + d) a =
      a * 10 ^ l.length + Nat.ofDigits 10 l := by
  induction l with
  | nil => intro a; simp
  | cons d t ih =>
    intro a
    rw [List.reverse_cons, List.foldl_append]
    simp only [List.foldl_cons, List.foldl_nil, ih a, Nat.ofDigits_cons, List.length_cons]
    ring

theorem decodeDec_natStr (n : ℕ) : decodeDec (natStr n) = n := by
  rcases Nat.eq_zero_or_pos n with h0 | hpos
  · subst h0; decide
  · unfold natStr decodeDec
    rw [if_neg hpos.ne']
    show (((decDigits n).reverse.map (fun d => Char.ofNat (d + 48))).foldl
      (fun a c => 10 * a + (c.toNat - 48)) 0) = n
    rw [List.foldl_map]
    have hmem : ∀ (a : ℕ), ∀ d ∈ (decDigits n).reverse,
        10 * a + ((Char.ofNat (d + 48)).toNat - 48) = 10 * a + d := by
      intro a d hd
      rw [List.mem_reverse] at hd
      rw [decDigits_eq_digits] at hd
      rw [charVal d (Nat.digits_lt_base (by norm_num) hd)]
    rw [List.foldl_ext _ _ _ hmem, foldl_decode_reverse]
    simp [decDigits_eq_digits, Nat.ofDigits_digits]

theorem natStr_length (n : ℕ) (hpos : 0 < n) :
    (natStr n).length = (Nat.digits 10 n).length := by
  unfold natStr
  rw [if_neg hpos.ne']
  show ((decDigits n).reverse.map (fun d => Char.ofNat (d + 48))).length =
    (Nat.digits 10 n).length
  rw [List.length_map, List.length_reverse, decDigits_eq_digits]

/-- For positive `n < 10 ^ w` the numeral has at most `w` digits. -/
theorem natStr_length_le (n : ℕ) (w : ℕ) (hw : 0 < w) (h : n < 10 ^ w) :
    (natStr n).length ≤ w := by
  rcases Nat.eq_zero_or_pos n with h0 | hpos
  · subst h0; simpa [natStr] using hw
  · rw [natStr_length n hpos, Nat.digits_len 10 n (by norm_num) hpos.ne']
    have := Nat.log_lt_of_lt_pow hpos.ne' h
    omega

/-- For `10 ^ w ≤ n`, the numeral has more than `w` digits. -/
theorem natStr_length_gt (n : ℕ) (w : ℕ) (h : 10 ^ w ≤ n) :
    w < (natStr n).length := by
  have hpos : 0 < n := lt_of_lt_of_le (Nat.pos_pow_of_pos w (by norm_num)) h
  rw [natStr_length n hpos, Nat.digits_len 10 n (by norm_num) hpos.ne']
  have := (Nat.pow_le_iff_le_log (by norm_num) hpos.ne').mp h
  omega

theorem string_mk_length (l : List Char) : (String.mk l).length = l.length := rfl

theorem string_mk_data (l : List Char) : (String.mk l).data = l := rfl

theorem string_append_data (a b : String) : (a ++ b).data = a.data ++ b.data := by
  cases a; cases b; rfl

theorem natStr_data_ne_nil (n : ℕ) : (natStr n).data ≠ [] := by
  rcases Nat.eq_zero_or_pos n with h0 | hpos
  · subst h0; decide
  · unfold natStr
    rw [if_neg hpos.ne', string_mk_data]
    simp only [ne_eq, List.map_eq_nil_iff, List.reverse_eq_nil_iff]
    rw [decDigits_eq_digits]
    exact Nat.digits_ne_nil_iff_ne_zero.mpr hpos.ne'

/-- The first character of a numeral is a decimal digit, never a sign. -/
theorem natStr_head_digit (n : ℕ) :
    ∀ c, (natStr n).data.head? = some c → ¬(c = '-' ∨ c = '+') := by
  intro c hc
  rcases Nat.eq_zero_or_pos n with h0 | hpos
  · subst h0
    have hc' : some '0' = some c := hc
    cases hc'
    decide
  · unfold natStr at hc
    rw [if_neg hpos.ne'] at hc
    rw [string_mk_data] at hc
    rcases hd : (decDigits n).reverse with _ | ⟨d, t⟩
    · rw [hd] at hc; simp at hc
    · rw [hd] at hc
      simp only [List.map_cons, List.head?_cons, Option.some.injEq] at hc
      have hdm : d ∈ decDigits n := by
        rw [← List.mem_reverse, hd]; exact List.mem_cons_self d t
      rw [decDigits_eq_digits] at hdm
      have hdlt : d < 10 := Nat.digits_lt_base (by norm_num) hdm
      subst hc
      interval_cases d <;> decide

/-- `zfill` on an unsigned digit string: it pads with zeros only, so length
becomes `max width length` and the decimal decoding is unchanged. -/
theorem decodeDec_foldl_replicate_zero (k : ℕ) (l : List Char) :
    (List.replicate k '0' ++ l).foldl (fun a c => 10 * a + (c.toNat - 48)) 0 =
      l.foldl (fun a c => 10 * a + (c.toNat - 48)) 0 := by
  induction k with
  | zero => simp
  | succ m ih => simpa [List.replicate_succ] using ih

theorem zfill_natStr_length (n w : ℕ) :
    (zfill (natStr n) w).length = max w (natStr n).length := by
  unfold zfill
  by_cases hw : w ≤ (natStr n).length
  · rw [if_pos hw]; omega
  · rw [if_neg hw]
    rcases hd : (natStr n).data with _ | ⟨c, rest⟩
    · exact absurd hd (natStr_data_ne_nil n)
    · have hc := natStr_head_digit n c (by rw [hd]; rfl)
      simp only [hd]
      rw [if_neg (by tauto)]
      simp only [string_mk_length, List.length_append, List.length_replicate,
        List.length_cons]
      have : (natStr n).length = rest.length + 1 := by
        show (natStr n).data.length = rest.length + 1
        rw [hd]; rfl
      omega

theorem decodeDec_zfill_natStr (n w : ℕ) :
    decodeDec (zfill (natStr n) w) = n := by
  unfold zfill
  by_cases hw : w ≤ (natStr n).length
  · rw [if_pos hw]; exact decodeDec_natStr n
  · rw [if_neg hw]
    rcases hd : (natStr n).data with _ | ⟨c, rest⟩
    · exact absurd hd (natStr_data_ne_nil n)
    · have hc := natStr_head_digit n c (by rw [hd]; rfl)
      simp only [hd]
      rw [if_neg (by tauto)]
      show (List.replicate (w - (natStr n).length) '0' ++ (c :: rest)).foldl
        (fun a cc => 10 * a + (cc.toNat - 48)) 0 = n
      rw [decodeDec_foldl_replicate_zero]
      have : decodeDec (natStr n) = n := decodeDec_natStr n
      unfold decodeDec at this
      rw [hd] at this
      exact this

/-! ## Live session controller (`class tcsii`)

Serial writes are returned as a list of command strings; the serial port
itself is the out-of-scope transport.  Attributes that are only assigned on
some code paths (`stim_duration_ms`, `stim_total_duration_ms`, ...) are
`Option` fields: reading a `none` field models Python's `AttributeError`. -/

/-- The `surfaces` argument of `tcsii.set_stim`: either a Python `list` of
zone numbers or a non-list scalar (the documented sentinel `0`, or any other
integer). -/
inductive PySurfaces
  | int (n : ℤ)
  | list (l : List ℤ)
deriving DecidableEq, Repr

/-- Session state of a `tcsii` object (the serial-port handle is external). -/
structure Session where
  baseline : ℤ
  max_temp : ℤ
  beep : Bool
  trigger_in : Bool
  stim_set : Bool
  stim_target_temp : Option ℤ
  stim_rise_rate : Option ℤ
  stim_return_rate : Option ℤ
  stim_trigger_code : Option ℤ
  stim_strigger_dur_ms : Option ℤ
  stim_rise_dur_ms : Option ℤ
  stim_return_dur_ms : Option ℤ
  stim_duration_ms : Option ℤ
  duration_mode : Option String
  /-- Read by `trigger_and_save_temp`; no method of the class ever assigns
  this attribute, so it stays `none` on every reachable session. -/
  stim_total_duration_ms : Option ℤ
  surfaces : Option PySurfaces
  all_surfaces : Option Bool
deriving DecidableEq

/-- `tcsii.__init__` (lines 64-88): stores baseline and max temperature and
returns the configuration commands written to the port.  The out-of-range
baseline check constructs a `Warning` object without raising it, so it has
no runtime effect and no state. -/
def tcsii_init (baseline : ℤ := 30) (max_temp : ℤ := 50)
    (beep : Bool := false) (trigger_in : Bool := true) : Session × List String :=
  ({ baseline := baseline
     max_temp := max_temp
     beep := beep
     trigger_in := trigger_in
     stim_set := false
     stim_target_temp := none
     stim_rise_rate := none
     stim_return_rate := none
     stim_trigger_code := none
     stim_strigger_dur_ms := none
     stim_rise_dur_ms := none
     stim_return_dur_ms := none
     stim_duration_ms := none
     duration_mode := none
     stim_total_duration_ms := none
     surfaces := none
     all_surfaces := none },
   ["N" ++ format_temp baseline,
    "Om" ++ format_temp max_temp,
    "F",
    if trigger_in then "Ose" else "Osd"])

/-- Surface bitmask of `tcsii.set_stim` (lines 195-208): a non-list value
selects all surfaces; a list yields one character per zone `1..5`. -/
def surf_string (surfaces : PySurfaces) : String :=
  match surfaces with
  | .int _ => "11111"
  | .list l =>
    ([1, 2, 3, 4, 5] : List ℤ).foldl
      (fun acc i => acc ++ (if l.contains i then "1" else "0")) ""

/-- `tcsii.set_stim` (lines 142-210).  Returns the commands written to the
port, the mutated session, and the Python error, if any, in raising order:
a zero rate raises `ZeroDivisionError` at the rise/return-duration
divisions; a `dur_mode` that never assigns `self.stim_duration_ms` (such as
`'fixed_plateau'` on a fresh session, which only updates the local `dur_ms`)
raises `AttributeError` when the `D0` command is built, after `C0`, `V0`
and `R0` were already written. -/
def set_stim (s : Session) (target rise_rate return_rate : ℤ) (dur_ms : ℤ)
    (dur_mode : String := "fixed_stim") (trigger_code : ℤ := 255)
    (trigger_dur_ms : ℤ := 10) (surfaces : PySurfaces := .int 0) :
    List String × Session × Option PyErr :=
  let s1 := { s with
    stim_set := true
    stim_target_temp := some target
    stim_rise_rate := some rise_rate
    stim_return_rate := some return_rate
    stim_trigger_code := some trigger_code
    stim_strigger_dur_ms := some trigger_dur_ms }
  if rise_rate = 0 then ([], s1, some .zeroDivisionError)
  else
    let rise_dur := pyTrunc (((target : ℚ) - (s.baseline : ℚ)) / (rise_rate : ℚ) * 1000)
    let s2 := { s1 with stim_rise_dur_ms := some rise_dur }
    if return_rate = 0 then ([], s2, some .zeroDivisionError)
    else
      let return_dur := pyTrunc (((target : ℚ) - (s.baseline : ℚ)) / (return_rate : ℚ) * 1000)
      let s3 := { s2 with stim_return_dur_ms := some return_dur }
      let dur_ms1 : ℤ := if dur_mode = "fixed_plateau" then dur_ms + rise_dur else dur_ms
      let stim_duration : Option ℤ :=
        if dur_mode = "fixed_total" then some (dur_ms1 - return_dur)
        else if dur_mode = "fixed_stim" then some dur_ms1
        else s.stim_duration_ms
      let s4 := { s3 with stim_duration_ms := stim_duration, duration_mode := some dur_mode }
      let w1 := "C0" ++ format_temp target
      let w2 := "V0" ++ format_temp rise_rate 4
      let w3 := "R0" ++ format_temp return_rate 4
      match stim_duration with
      | none => ([w1, w2, w3], s4, some .attributeError)
      | some d =>
        let s5 := { s4 with
          surfaces := some surfaces
          all_surfaces := some (match surfaces with | .list _ => false | .int _ => true) }
        ([w1, w2, w3, "D0" ++ format_ms d, "S" ++ surf_string surfaces], s5, none)

/-- `tcsii.trigger_and_save_temp` (lines 219-239), modelled up to the first
evaluation of the polling-loop guard.  With `beep` set the method reads the
nonexistent attribute `self.tport` before writing anything; otherwise it
writes the fire command `L` and then evaluates
`self.stim_total_duration_ms/1000 + offset_s`, reading an attribute that no
method of the class ever assigns.  On every reachable session that field is
`none`, so the guard raises `AttributeError` and the sampling loop below it
is dead code (hence not modelled further). -/
def trigger_and_save_temp (s : Session) : List String × Option PyErr :=
  if s.beep then ([], some .attributeError)
  else
    match s.stim_total_duration_ms with
    | none => (["L"], some .attributeError)
    | some _ => (["L"], none)

/-! ## Protocol script builder (`class tcsii_protocol_generator`) -/

/-- Round a rational to the nearest integer, ties to even: the rounding of
Python's fixed-point float formatting, exact on values that are exact
multiples of the formatting step. -/
def roundHalfEven (q : ℚ) : ℤ :=
  let f := ⌊q⌋
  let r := q - (f : ℚ)
  if r < 1 / 2 then f
  else if 1 / 2 < r then f + 1
  else if 2 ∣ f then f else f + 1

/-- Model of the Python format conversion `f'{x:.3f}'`: three decimal
digits after the point, sign in front. -/
def fmt3 (q : ℚ) : String :=
  let n := roundHalfEven (q * 1000)
  let sign := if n < 0 then "-" else ""
  let a := n.natAbs
  sign ++ natStr (a / 1000) ++ "." ++ zfill (natStr (a % 1000)) 3

/-- Builder state of a `tcsii_protocol_generator` object. -/
structure PGen where
  filename : String
  n_steps : ℕ
  recordTemperatures : ℤ
  protocol : List String
deriving DecidableEq

/-- `tcsii_protocol_generator.__init__` (lines 295-306). -/
def pgen_init (filename : String) (recordTemperatures : ℤ := 1) : PGen :=
  { filename := filename
    n_steps := 0
    recordTemperatures := recordTemperatures
    protocol := ["[protocol]", "stepsNumber=0",
                 "recordTemperatures=" ++ intStr recordTemperatures, ""] }

/-- The per-zone block appended by `add_stimulation` for zone `z`
(lines 352-367). -/
def stim_zone_lines (curr_step : ℕ) (z : ℤ) (zones : List ℤ)
    (duration target_temp wait rise_rate return_rate : String) : List String :=
  ["[step" ++ natStr curr_step ++ "_zone" ++ intStr z ++ "]",
   if zones.contains z then "enabled=1" else "enabled=0",
   "duration=" ++ duration,
   "wait=" ++ wait,
   "temperature=" ++ target_temp,
   "speed=" ++ rise_rate,
   "return=" ++ return_rate,
   "pointToPointEnabled=0",
   "nbrPts=1",
   "sec1=1.000",
   "deg1=30.000",
   ""]

/-- `tcsii_protocol_generator.add_stimulation` (lines 309-367).  A zero
rise/return rate raises `ZeroDivisionError` before any mutation.  The
duration-mode conditionals adjust `duration_smmm`; the recognized strings
are `'fixed_plateau'`, `'fixed_total'` and the no-op `'stim_only'` — any
other string (including `'fixed_stim'`) leaves the duration unchanged
without an error. -/
def add_stimulation (st : PGen) (target_temp rise_rate return_rate duration_smmm : ℚ)
    (baseline : ℚ := 30) (wait : ℚ := 0) (zones : List ℤ := [1, 2, 3, 4, 5])
    (trig_out_val : ℤ := 255) (trig_out_dur : ℚ := 3 / 10)
    (duration_mode : String := "fixed_plateau") : PGen × Option PyErr :=
  if rise_rate = 0 then (st, some .zeroDivisionError)
  else if return_rate = 0 then (st, some .zeroDivisionError)
  else
    let rise_time := (target_temp - baseline) / rise_rate
    let return_time := (target_temp - baseline) / return_rate
    let dur :=
      if duration_mode = "fixed_plateau" then duration_smmm + rise_time
      else if duration_mode = "fixed_total" then duration_smmm - return_time
      else duration_smmm
    let curr_step := st.n_steps + 1
    ({ st with
       n_steps := curr_step
       protocol := st.protocol ++
         ["[step" ++ natStr curr_step ++ "]",
          "stepType=0",
          "stepTypeText=STIMULATE",
          "",
          "[step" ++ natStr curr_step ++ "_stimulation]",
          "baseline=" ++ fmt3 baseline,
          "triggerVal=" ++ intStr trig_out_val,
          "triggerDur=" ++ fmt3 trig_out_dur,
          ""] ++
         (([1, 2, 3, 4, 5] : List ℤ).map
           (fun z => stim_zone_lines curr_step z zones (fmt3 dur) (fmt3 target_temp)
             (fmt3 wait) (fmt3 rise_rate) (fmt3 return_rate))).flatten },
     none)

/-- `tcsii_protocol_generator.add_wait_trigger_in` (lines 370-380). -/
def add_wait_trigger_in (st : PGen) : PGen :=
  let curr_step := st.n_steps + 1
  { st with
    n_steps := curr_step
    protocol := st.protocol ++
      ["[step" ++ natStr curr_step ++ "]",
       "stepType=2",
       "stepTypeText=WAIT",
       "typeWait=3",
       "typeWaitText=WAIT_TRIGGER",
       "number=1",
       ""] }

/-- `tcsii_protocol_generator.set_baseline` (lines 383-393). -/
def set_baseline (st : PGen) (baseline_temp : ℚ := 30) (adjust_to_skin : ℤ := 0) : PGen :=
  let curr_step := st.n_steps + 1
  { st with
    n_steps := curr_step
    protocol := st.protocol ++
      ["[step" ++ natStr curr_step ++ "]",
       "stepType=6",
       "stepTypeText=BASELINE",
       "baseline=" ++ fmt3 baseline_temp,
       "adjustToSkin=" ++ intStr adjust_to_skin,
       ""] }

/-- `tcsii_protocol_generator.set_constant_temp` (lines 395-413).  Note the
speed line (source line 407): the key is the bare `constTempSpeed` and the
zone number is concatenated into the value. -/
def set_constant_temp (st : PGen) (constant_temp duration_s speed : ℚ)
    (zones : List ℤ) : PGen :=
  let curr_step := st.n_steps + 1
  { st with
    n_steps := curr_step
    protocol := st.protocol ++
      (["[step" ++ natStr curr_step ++ "]",
        "stepType=8",
        "stepTypeText=SET_CONST_TEMP"] ++
       (([1, 2, 3, 4, 5] : List ℤ).map
         (fun z =>
           ["constTemp" ++ intStr z ++ "=" ++ fmt3 constant_temp,
            "constTempSpeed=" ++ intStr z ++ fmt3 speed,
            if zones.contains z then "enableConsTemp" ++ intStr z ++ "=1"
            else "enableConsTemp" ++ intStr z ++ "=0",
            "ConstTempHold" ++ intStr z ++ "=" ++ fmt3 duration_s])).flatten ++
       [""]) }

/-- `tcsii_protocol_generator.export_protocol` (lines 416-422): rewrite the
`stepsNumber` header in place, then serialize every line followed by a
newline.  Returns the bytes written to the file and the mutated builder. -/
def export_protocol (st : PGen) : String × PGen :=
  let p := st.protocol.set 1 ("stepsNumber=" ++ natStr st.n_steps)
  ((p.map (fun line => line ++ "\n")).foldl (fun acc line => acc ++ line) "",
   { st with protocol := p })

/-- A parameter of `generate_from_lists` that may be a scalar (broadcast)
or a per-trial Python list, for rational-valued parameters. -/
inductive PyNumOrList
  | scalar (q : ℚ)
  | list (l : List ℚ)
deriving DecidableEq

/-- Scalar-or-list parameter for integer-valued parameters. -/
inductive PyIntOrList
  | scalar (n : ℤ)
  | list (l : List ℤ)
deriving DecidableEq

/-- The `zones` argument of `generate_from_lists`: a flat Python list of
zone numbers (broadcast to every trial once its first element is seen to be
a non-list) or a list of per-trial zone lists. -/
inductive ZonesArg
  | flat (l : List ℤ)
  | nested (l : List (List ℤ))
deriving DecidableEq

/-- Broadcast a scalar-or-list rational parameter to `n` trials. -/
def broadcastQ (p : PyNumOrList) (n : ℕ) : List ℚ :=
  match p with
  | .scalar q => List.replicate n q
  | .list l => l

/-- `tcsii_protocol_generator.generate_from_lists` (lines 425-456),
following the source's execution order: resolve `temp_list` (a scalar
requires a truthy `n_trials`, enforced by `assert n_trials`), broadcast
`duration_smmm`, inspect `zones[0]` (an empty `zones` raises `IndexError`
here, before any step is appended), broadcast the remaining parameters,
then for each zipped trial append a wait-for-trigger step followed by a
stimulation step.  Returns the builder state reached at the first error. -/
def generate_from_lists (st : PGen) (temp_list : PyNumOrList)
    (duration_smmm : PyNumOrList) (zones : ZonesArg)
    (rise_rate return_rate : PyNumOrList) (baseline : ℚ := 30) (wait : ℚ := 0)
    (trig_out_val : PyIntOrList := .scalar 255) (trigger_out_dur : ℚ := 1 / 10)
    (duration_mode : String := "fixed_plateau") (n_trials : Option ℤ := none) :
    PGen × Option PyErr :=
  let temps? : Except PyErr (List ℚ) :=
    match temp_list with
    | .list l => .ok l
    | .scalar t =>
      match n_trials with
      | none => .error .assertionError
      | some k => if k = 0 then .error .assertionError else .ok (List.replicate k.toNat t)
  match temps? with
  | .error e => (st, some e)
  | .ok temps =>
    let durs := broadcastQ duration_smmm temps.length
    match zones with
    | .flat [] => (st, some .indexError)
    | .nested [] => (st, some .indexError)
    | _ =>
      let zoneLists : List (List ℤ) :=
        match zones with
        | .flat l => List.replicate temps.length l
        | .nested ls => ls
      let rises := broadcastQ rise_rate temps.length
      let rets := broadcastQ return_rate temps.length
      let trigs : List ℤ :=
        match trig_out_val with
        | .scalar v => List.replicate temps.length v
        | .list l => l
      let trials := ((((temps.zip durs).zip rises).zip rets).zip trigs).zip zoneLists
      trials.foldl
        (fun acc tr =>
          match acc with
          | (st1, some e) => (st1, some e)
          | (st1, none) =>
            match tr with
            | (((((target, duration), rise), ret), trig_val), zone) =>
              add_stimulation (add_wait_trigger_in st1) target rise ret duration
                baseline wait zone trig_val trigger_out_dur duration_mode)
        (st, none)

/-- One appended step of the protocol builder, carrying the arguments of
the corresponding method call: used to quantify over arbitrary sequences of
builder operations. -/
inductive POp
  | stim (target rise ret dur baseline wait : ℚ) (zones : List ℤ) (tv : ℤ)
      (td : ℚ) (mode : String)
  | waitTrig
  | base (b : ℚ) (adj : ℤ)
  | constTemp (t d sp : ℚ) (zs : List ℤ)
deriving DecidableEq

/-- Apply one builder operation. -/
def applyPOp (st : PGen) : POp → PGen × Option PyErr
  | .stim target rise ret dur b w zs tv td mode =>
    add_stimulation st target rise ret dur b w zs tv td mode
  | .waitTrig => (add_wait_trigger_in st, none)
  | .base b adj => (set_baseline st b adj, none)
  | .constTemp t d sp zs => (set_constant_temp st t d sp zs, none)

/-- Run a sequence of builder operations, stopping at the first error. -/
def runPOps (st : PGen) : List POp → PGen × Option PyErr
  | [] => (st, none)
  | op :: ops =>
    match applyPOp st op with
    | (st1, none) => runPOps st1 ops
    | (st1, some e) => (st1, some e)

/-! ## Theorems

### C5 — fixed-width encoder -/

theorem intStr_of_nonneg (n : ℤ) (h0 : 0 ≤ n) : intStr n = natStr n.toNat := by
  unfold intStr
  rw [if_neg (not_lt.mpr h0)]
  congr 1
  omega

theorem format_ms_repr (m : ℤ) (w : ℕ) (hw : 0 < w) (h0 : 0 ≤ m)
    (h : m < 10 ^ w) :
    (format_ms m w).length = w ∧ decodeDec (format_ms m w) = m.toNat := by
  have hm : intStr m = natStr m.toNat := intStr_of_nonneg m h0
  have hlt : m.toNat < 10 ^ w := by
    zify
    rwa [Int.toNat_of_nonneg h0]
  constructor
  · rw [format_ms, hm, zfill_natStr_length]
    exact Nat.max_eq_left (natStr_length_le _ w hw hlt)
  · rw [format_ms, hm, decodeDec_zfill_natStr]

theorem format_ms_overflow (m : ℤ) (w : ℕ) (h : (10 : ℤ) ^ w ≤ m) :
    format_ms m w = intStr m ∧ w < (format_ms m w).length := by
  have h0 : 0 ≤ m := le_trans (by positivity) h
  have hm : intStr m = natStr m.toNat := intStr_of_nonneg m h0
  have hge : 10 ^ w ≤ m.toNat := by
    zify
    rwa [Int.toNat_of_nonneg h0]
  have hgt : w < (intStr m).length := by
    rw [hm]
    exact natStr_length_gt _ w hge
  have heq : format_ms m w = intStr m := by
    rw [format_ms, zfill, if_pos (le_of_lt hgt)]
  exact ⟨heq, heq ▸ hgt⟩

/-- C5 (amended): for a value representable in `width` decimal digits, both
`format_temp` (tenths-of-degree scaling) and `format_ms` return a string of
exactly `width` digits, zero-padded on the left, whose decimal decoding is
the scaled value; for a value requiring more digits they silently return
the full, wider numeral unchanged — `zfill` never truncates and no
`ValueOutOfRange` error exists in the code. -/
theorem format_encoders_roundtrip_amended :
    (∀ (v : ℤ) (w : ℕ), 0 < w → 0 ≤ v → v * 10 < 10 ^ w →
      (format_temp v w).length = w ∧
      decodeDec (format_temp v w) = (v * 10).toNat) ∧
    (∀ (m : ℤ) (w : ℕ), 0 < w → 0 ≤ m → m < 10 ^ w →
      (format_ms m w).length = w ∧ decodeDec (format_ms m w) = m.toNat) ∧
    (∀ (m : ℤ) (w : ℕ), (10 : ℤ) ^ w ≤ m →
      format_ms m w = intStr m ∧ w < (format_ms m w).length) ∧
    (∀ (v : ℤ) (w : ℕ), (10 : ℤ) ^ w ≤ v * 10 →
      format_temp v w = intStr (v * 10) ∧ w < (format_temp v w).length) := by
  refine ⟨fun v w hw h0 h => ?_, fun m w hw h0 h => format_ms_repr m w hw h0 h,
    fun m w h => format_ms_overflow m w h, fun v w h => ?_⟩
  · exact format_ms_repr (v * 10) w hw (by positivity) h
  · exact format_ms_overflow (v * 10) w h

/-- C5 (counterexample): a temperature needing more than the requested 3
digits is emitted as a wider string with no error, refuting the claimed
`ValueOutOfRange` behaviour. -/
theorem format_encoders_overflow_counterexample :
    format_temp 1000 3 = "10000" ∧ (format_temp 1000 3).length = 5 ∧
    format_ms 123456 5 = "123456" ∧ (format_ms 123456 5).length = 6 := by
  refine ⟨?_, ?_, ?_, ?_⟩ <;> decide

/-- C5 (witness): the amended theorem evaluated at `v = 42`, `w = 3`. -/
theorem format_encoders_roundtrip_amended_witness :
    0 < 3 ∧ (0 : ℤ) ≤ 42 ∧ (42 : ℤ) * 10 < 10 ^ 3 ∧
    ((format_temp 42 3).length = 3 ∧
      decodeDec (format_temp 42 3) = ((42 : ℤ) * 10).toNat) :=
  ⟨by decide, by decide, by decide,
    format_encoders_roundtrip_amended.1 42 3 (by decide) (by decide) (by decide)⟩

/-! ### C1 — fixed_total duration resolution -/

theorem roundHalfEven_intCast (m : ℤ) : roundHalfEven (m : ℚ) = m := by
  unfold roundHalfEven
  rw [Int.floor_intCast]
  norm_num

theorem fmt3_of_mul_1000_eq (q : ℚ) (n : ℤ) (h : q * 1000 = (n : ℚ)) :
    fmt3 q = (if n < 0 then "-" else "") ++ natStr (n.natAbs / 1000) ++ "." ++
      zfill (natStr (n.natAbs % 1000)) 3 := by
  simp only [fmt3, h, roundHalfEven_intCast]


/-- Closed form of `add_stimulation` under `fixed_total` with nonzero
rates. -/
theorem add_stimulation_fixed_total_eq (st : PGen) (T Rr Rt D B w : ℚ)
    (zs : List ℤ) (tv : ℤ) (td : ℚ) (hRr : Rr ≠ 0) (hRt : Rt ≠ 0) :
    add_stimulation st T Rr Rt D B w zs tv td "fixed_total" =
      ({ st with
         n_steps := st.n_steps + 1
         protocol := st.protocol ++
           ["[step" ++ natStr (st.n_steps + 1) ++ "]",
            "stepType=0",
            "stepTypeText=STIMULATE",
            "",
            "[step" ++ natStr (st.n_steps + 1) ++ "_stimulation]",
            "baseline=" ++ fmt3 B,
            "triggerVal=" ++ intStr tv,
            "triggerDur=" ++ fmt3 td,
            ""] ++
           (([1, 2, 3, 4, 5] : List ℤ).map
             (fun z => stim_zone_lines (st.n_steps + 1) z zs
               (fmt3 (D - (T - B) / Rt)) (fmt3 T) (fmt3 w) (fmt3 Rr)
               (fmt3 Rt))).flatten }, none) := by
  unfold add_stimulation
  rw [if_neg hRr, if_neg hRt]
  rfl

/-- Closed form of `set_stim` under `fixed_total` with nonzero rates. -/
theorem set_stim_fixed_total_eq (s : Session) (target rise ret Dms tc td : ℤ)
    (surf : PySurfaces) (hrise : rise ≠ 0) (hret : ret ≠ 0) :
    set_stim s target rise ret Dms "fixed_total" tc td surf =
      (["C0" ++ format_temp target,
        "V0" ++ format_temp rise 4,
        "R0" ++ format_temp ret 4,
        "D0" ++ format_ms (Dms -
          pyTrunc (((target : ℚ) - (s.baseline : ℚ)) / (ret : ℚ) * 1000)),
        "S" ++ surf_string surf],
       { s with
         stim_set := true
         stim_target_temp := some target
         stim_rise_rate := some rise
         stim_return_rate := some ret
         stim_trigger_code := some tc
         stim_strigger_dur_ms := some td
         stim_rise_dur_ms :=
           some (pyTrunc (((target : ℚ) - (s.baseline : ℚ)) / (rise : ℚ) * 1000))
         stim_return_dur_ms :=
           some (pyTrunc (((target : ℚ) - (s.baseline : ℚ)) / (ret : ℚ) * 1000))
         stim_duration_ms := some (Dms -
           pyTrunc (((target : ℚ) - (s.baseline : ℚ)) / (ret : ℚ) * 1000))
         duration_mode := some "fixed_total"
         surfaces := some surf
         all_surfaces := some (match surf with | .list _ => false | .int _ => true) },
       none) := by
  unfold set_stim
  rw [if_neg hrise, if_neg hret]
  rfl

/-- C1 (amended): under `fixed_total`, both realizations of the resolver
compute the effective duration `D − (T−B)/Rt` (the live controller at
millisecond scale, applying Python `int()` truncation to the return time)
and emit it unconditionally: the operation succeeds with no
`NegativeEffectiveDuration` check, so when `D ≤ (T−B)/Rt` the non-positive
duration is appended/transmitted as-is rather than reported as an error. -/
theorem fixed_total_resolver_amended :
    (∀ (st : PGen) (T B Rr Rt D w : ℚ) (zs : List ℤ) (tv : ℤ) (td : ℚ),
      Rr ≠ 0 → Rt ≠ 0 →
      (add_stimulation st T Rr Rt D B w zs tv td "fixed_total").2 = none ∧
      "duration=" ++ fmt3 (D - (T - B) / Rt) ∈
        (add_stimulation st T Rr Rt D B w zs tv td "fixed_total").1.protocol) ∧
    (∀ (s : Session) (target rise ret Dms tc td : ℤ) (surf : PySurfaces),
      rise ≠ 0 → ret ≠ 0 →
      (set_stim s target rise ret Dms "fixed_total" tc td surf).2.2 = none ∧
      "D0" ++ format_ms (Dms -
          pyTrunc (((target : ℚ) - (s.baseline : ℚ)) / (ret : ℚ) * 1000)) ∈
        (set_stim s target rise ret Dms "fixed_total" tc td surf).1) := by
  constructor
  · intro st T B Rr Rt D w zs tv td hRr hRt
    rw [add_stimulation_fixed_total_eq st T Rr Rt D B w zs tv td hRr hRt]
    refine ⟨rfl, ?_⟩
    show _ ∈ st.protocol ++ _ ++ _
    refine List.mem_append_right _ ?_
    refine List.mem_flatten.mpr ⟨stim_zone_lines (st.n_steps + 1) 1 zs
      (fmt3 (D - (T - B) / Rt)) (fmt3 T) (fmt3 w) (fmt3 Rr) (fmt3 Rt), ?_, ?_⟩
    · exact List.mem_map_of_mem _ (by norm_num)
    · simp [stim_zone_lines]
  · intro s target rise ret Dms tc td surf hrise hret
    rw [set_stim_fixed_total_eq s target rise ret Dms tc td surf hrise hret]
    exact ⟨rfl, by simp⟩

/-- C1 (counterexample): with target 42 °C, baseline 30 °C, return rate
3 °C/s and raw total duration 2 s (2000 ms live), the return time is 4 s,
so the resolved duration is −2 s; both realizations succeed and emit the
negative duration instead of reporting an error before appending or
transmitting. -/
theorem fixed_total_negative_duration_counterexample :
    (add_stimulation (pgen_init "p") 42 3 3 2 30 0 [1, 2, 3, 4, 5] 255 (3 / 10)
        "fixed_total").2 = none ∧
    "duration=-2.000" ∈ (add_stimulation (pgen_init "p") 42 3 3 2 30 0
        [1, 2, 3, 4, 5] 255 (3 / 10) "fixed_total").1.protocol ∧
    (set_stim (tcsii_init 30 50 false true).1 42 3 3 2000 "fixed_total" 255 10
        (.int 0)).2.2 = none ∧
    "D0-2000" ∈ (set_stim (tcsii_init 30 50 false true).1 42 3 3 2000
        "fixed_total" 255 10 (.int 0)).1 := by
  have h3 : (3 : ℚ) ≠ 0 := by norm_num
  have hz3 : (3 : ℤ) ≠ 0 := by decide
  have hfmt : fmt3 ((2 : ℚ) - ((42 : ℚ) - 30) / 3) = "-2.000" := by
    rw [show (2 : ℚ) - ((42 : ℚ) - 30) / 3 = -2 by norm_num,
      fmt3_of_mul_1000_eq (-2) (-2000) (by norm_num)]
    decide
  have hpt : pyTrunc ((((42 : ℤ) : ℚ) -
      (((tcsii_init 30 50 false true).1.baseline : ℤ) : ℚ)) / ((3 : ℤ) : ℚ) * 1000) =
      4000 := by
    show pyTrunc (((42 : ℚ) - ((30 : ℤ) : ℚ)) / ((3 : ℤ) : ℚ) * 1000) = 4000
    unfold pyTrunc
    norm_num
  refine ⟨?_, ?_, ?_, ?_⟩
  · rw [add_stimulation_fixed_total_eq (pgen_init "p") 42 3 3 2 30 0
      [1, 2, 3, 4, 5] 255 (3 / 10) h3 h3]
  · rw [add_stimulation_fixed_total_eq (pgen_init "p") 42 3 3 2 30 0
      [1, 2, 3, 4, 5] 255 (3 / 10) h3 h3]
    show _ ∈ (pgen_init "p").protocol ++ _ ++ _
    refine List.mem_append_right _ ?_
    refine List.mem_flatten.mpr ⟨stim_zone_lines 1 1 [1, 2, 3, 4, 5]
      (fmt3 ((2 : ℚ) - ((42 : ℚ) - 30) / 3)) (fmt3 42) (fmt3 0) (fmt3 3)
      (fmt3 3), ?_, ?_⟩
    · exact List.mem_map_of_mem _ (by norm_num)
    · rw [hfmt]
      simp [stim_zone_lines]
  · rw [set_stim_fixed_total_eq (tcsii_init 30 50 false true).1 42 3 3 2000
      255 10 (.int 0) hz3 hz3]
  · rw [set_stim_fixed_total_eq (tcsii_init 30 50 false true).1 42 3 3 2000
      255 10 (.int 0) hz3 hz3, hpt]
    decide

/-- C1 (witness): the amended theorem at `T = 42`, `B = 30`, `Rt = 3`,
`D = 20`. -/
theorem fixed_total_resolver_amended_witness :
    ((3 : ℚ) ≠ 0) ∧
    ((add_stimulation (pgen_init "p") 42 3 3 20 30 0 [1, 2, 3, 4, 5] 255
        (3 / 10) "fixed_total").2 = none ∧
      "duration=" ++ fmt3 ((20 : ℚ) - ((42 : ℚ) - 30) / 3) ∈
        (add_stimulation (pgen_init "p") 42 3 3 20 30 0 [1, 2, 3, 4, 5] 255
          (3 / 10) "fixed_total").1.protocol) :=
  ⟨by norm_num, fixed_total_resolver_amended.1 (pgen_init "p") 42 30 3 3 20 0
    [1, 2, 3, 4, 5] 255 (3 / 10) (by norm_num) (by norm_num)⟩

/-! ### C2 and C8 — fixed_plateau -/

/-- Closed form of `add_stimulation` under `fixed_plateau` with nonzero
rates. -/
theorem add_stimulation_fixed_plateau_eq (st : PGen) (T Rr Rt D B w : ℚ)
    (zs : List ℤ) (tv : ℤ) (td : ℚ) (hRr : Rr ≠ 0) (hRt : Rt ≠ 0) :
    add_stimulation st T Rr Rt D B w zs tv td "fixed_plateau" =
      ({ st with
         n_steps := st.n_steps + 1
         protocol := st.protocol ++
           ["[step" ++ natStr (st.n_steps + 1) ++ "]",
            "stepType=0",
            "stepTypeText=STIMULATE",
            "",
            "[step" ++ natStr (st.n_steps + 1) ++ "_stimulation]",
            "baseline=" ++ fmt3 B,
            "triggerVal=" ++ intStr tv,
            "triggerDur=" ++ fmt3 td,
            ""] ++
           (([1, 2, 3, 4, 5] : List ℤ).map
             (fun z => stim_zone_lines (st.n_steps + 1) z zs
               (fmt3 (D + (T - B) / Rr)) (fmt3 T) (fmt3 w) (fmt3 Rr)
               (fmt3 Rt))).flatten }, none) := by
  unfold add_stimulation
  rw [if_neg hRr, if_neg hRt]
  rfl

/-- Closed form of `set_stim` under `fixed_plateau` when the session has no
previously stored duration: the branch updates only the local `dur_ms`, the
stored duration stays unset, and building the `D0` command raises
`AttributeError` after `C0`, `V0` and `R0` were written. -/
theorem set_stim_fixed_plateau_unset_eq (s : Session)
    (target rise ret Dms tc td : ℤ) (surf : PySurfaces)
    (hrise : rise ≠ 0) (hret : ret ≠ 0) (hnone : s.stim_duration_ms = none) :
    set_stim s target rise ret Dms "fixed_plateau" tc td surf =
      (["C0" ++ format_temp target,
        "V0" ++ format_temp rise 4,
        "R0" ++ format_temp ret 4],
       { s with
         stim_set := true
         stim_target_temp := some target
         stim_rise_rate := some rise
         stim_return_rate := some ret
         stim_trigger_code := some tc
         stim_strigger_dur_ms := some td
         stim_rise_dur_ms :=
           some (pyTrunc (((target : ℚ) - (s.baseline : ℚ)) / (rise : ℚ) * 1000))
         stim_return_dur_ms :=
           some (pyTrunc (((target : ℚ) - (s.baseline : ℚ)) / (ret : ℚ) * 1000))
         stim_duration_ms := none
         duration_mode := some "fixed_plateau" },
       some .attributeError) := by
  unfold set_stim
  rw [if_neg hrise, if_neg hret, hnone]
  rfl

/-- C8: on every session whose stored stimulation duration is unset, a
`set_stim` call in `fixed_plateau` mode raises `AttributeError` before the
`D0` duration command: only `C0`, `V0` and `R0` are transmitted, and the
session's stored duration field is still unset afterwards (the branch adds
the rise time to the local variable only). -/
theorem set_stim_fixed_plateau_unset_attribute_error (s : Session)
    (target rise ret Dms tc td : ℤ) (surf : PySurfaces)
    (hrise : rise ≠ 0) (hret : ret ≠ 0) (hnone : s.stim_duration_ms = none) :
    (set_stim s target rise ret Dms "fixed_plateau" tc td surf).2.2 =
        some .attributeError ∧
    (set_stim s target rise ret Dms "fixed_plateau" tc td surf).1 =
      ["C0" ++ format_temp target,
       "V0" ++ format_temp rise 4,
       "R0" ++ format_temp ret 4] ∧
    (set_stim s target rise ret Dms "fixed_plateau" tc td surf).2.1.stim_duration_ms
        = none := by
  rw [set_stim_fixed_plateau_unset_eq s target rise ret Dms tc td surf hrise hret hnone]
  exact ⟨rfl, rfl, rfl⟩

/-- C8 (witness): a fresh session (stored duration unset) with target 42,
rates 3, raw duration 10000 ms. -/
theorem set_stim_fixed_plateau_unset_attribute_error_witness :
    ((3 : ℤ) ≠ 0 ∧ (tcsii_init 30 50 false true).1.stim_duration_ms = none) ∧
    ((set_stim (tcsii_init 30 50 false true).1 42 3 3 10000 "fixed_plateau" 255
        10 (.int 0)).2.2 = some .attributeError ∧
      (set_stim (tcsii_init 30 50 false true).1 42 3 3 10000 "fixed_plateau" 255
        10 (.int 0)).1 =
        ["C0" ++ format_temp 42, "V0" ++ format_temp 3 4, "R0" ++ format_temp 3 4] ∧
      (set_stim (tcsii_init 30 50 false true).1 42 3 3 10000 "fixed_plateau" 255
        10 (.int 0)).2.1.stim_duration_ms = none) :=
  ⟨⟨by decide, rfl⟩,
    set_stim_fixed_plateau_unset_attribute_error (tcsii_init 30 50 false true).1
      42 3 3 10000 255 10 (.int 0) (by decide) (by decide) rfl⟩

/-- C2: in `fixed_plateau` mode the protocol generator emits
`D + (T−B)/Rr` (here `10 + 4 = 14` s, line `duration=14.000`), but the live
controller does not: on a fresh session the same parameters make `set_stim`
raise `AttributeError` with only `C0`/`V0`/`R0` transmitted, because the
`fixed_plateau` branch never assigns the stored duration that the `D0`
transmit reads. -/
theorem fixed_plateau_live_divergence :
    ((add_stimulation (pgen_init "p") 42 3 3 10 30 0 [1, 2, 3, 4, 5] 255
        (3 / 10) "fixed_plateau").2 = none ∧
      "duration=14.000" ∈ (add_stimulation (pgen_init "p") 42 3 3 10 30 0
        [1, 2, 3, 4, 5] 255 (3 / 10) "fixed_plateau").1.protocol) ∧
    ((set_stim (tcsii_init 30 50 false true).1 42 3 3 10000 "fixed_plateau" 255
        10 (.int 0)).2.2 = some .attributeError ∧
      (set_stim (tcsii_init 30 50 false true).1 42 3 3 10000 "fixed_plateau" 255
        10 (.int 0)).1 = ["C0420", "V00030", "R00030"]) := by
  have h3 : (3 : ℚ) ≠ 0 := by norm_num
  constructor
  · rw [add_stimulation_fixed_plateau_eq (pgen_init "p") 42 3 3 10 30 0
      [1, 2, 3, 4, 5] 255 (3 / 10) h3 h3]
    have hfmt : fmt3 ((10 : ℚ) + ((42 : ℚ) - 30) / 3) = "14.000" := by
      rw [show (10 : ℚ) + ((42 : ℚ) - 30) / 3 = 14 by norm_num,
        fmt3_of_mul_1000_eq 14 14000 (by norm_num)]
      decide
    refine ⟨rfl, ?_⟩
    show _ ∈ (pgen_init "p").protocol ++ _ ++ _
    refine List.mem_append_right _ ?_
    refine List.mem_flatten.mpr ⟨stim_zone_lines 1 1 [1, 2, 3, 4, 5]
      (fmt3 ((10 : ℚ) + ((42 : ℚ) - 30) / 3)) (fmt3 42) (fmt3 0) (fmt3 3)
      (fmt3 3), ?_, ?_⟩
    · exact List.mem_map_of_mem _ (by norm_num)
    · rw [hfmt]
      simp [stim_zone_lines]
  · rw [set_stim_fixed_plateau_unset_eq (tcsii_init 30 50 false true).1
      42 3 3 10000 255 10 (.int 0) (by decide) (by decide) rfl]
    exact ⟨rfl, by decide⟩

/-! ### C4 — unrecognized duration-mode strings -/

/-- Closed form of `add_stimulation` for any mode string other than
`fixed_plateau` and `fixed_total` (this includes `stim_only`, whose branch
is the identity, and every unrecognized string): the raw duration is used
unchanged and the step is appended with no error. -/
theorem add_stimulation_other_mode_eq (st : PGen) (T Rr Rt D B w : ℚ)
    (zs : List ℤ) (tv : ℤ) (td : ℚ) (mode : String)
    (hRr : Rr ≠ 0) (hRt : Rt ≠ 0)
    (hm1 : mode ≠ "fixed_plateau") (hm2 : mode ≠ "fixed_total") :
    add_stimulation st T Rr Rt D B w zs tv td mode =
      ({ st with
         n_steps := st.n_steps + 1
         protocol := st.protocol ++
           ["[step" ++ natStr (st.n_steps + 1) ++ "]",
            "stepType=0",
            "stepTypeText=STIMULATE",
            "",
            "[step" ++ natStr (st.n_steps + 1) ++ "_stimulation]",
            "baseline=" ++ fmt3 B,
            "triggerVal=" ++ intStr tv,
            "triggerDur=" ++ fmt3 td,
            ""] ++
           (([1, 2, 3, 4, 5] : List ℤ).map
             (fun z => stim_zone_lines (st.n_steps + 1) z zs
               (fmt3 D) (fmt3 T) (fmt3 w) (fmt3 Rr) (fmt3 Rt))).flatten },
       none) := by
  unfold add_stimulation
  rw [if_neg hRr, if_neg hRt]
  simp only [hm1, hm2, if_false]

/-- Closed form of `set_stim` for a mode string outside the three branch
conditions, on a session with no stored duration: `AttributeError` after
`C0`/`V0`/`R0`. -/
theorem set_stim_unknown_mode_unset_eq (s : Session)
    (target rise ret Dms tc td : ℤ) (surf : PySurfaces) (mode : String)
    (hrise : rise ≠ 0) (hret : ret ≠ 0)
    (hm1 : mode ≠ "fixed_plateau") (hm2 : mode ≠ "fixed_total")
    (hm3 : mode ≠ "fixed_stim") (hnone : s.stim_duration_ms = none) :
    set_stim s target rise ret Dms mode tc td surf =
      (["C0" ++ format_temp target,
        "V0" ++ format_temp rise 4,
        "R0" ++ format_temp ret 4],
       { s with
         stim_set := true
         stim_target_temp := some target
         stim_rise_rate := some rise
         stim_return_rate := some ret
         stim_trigger_code := some tc
         stim_strigger_dur_ms := some td
         stim_rise_dur_ms :=
           some (pyTrunc (((target : ℚ) - (s.baseline : ℚ)) / (rise : ℚ) * 1000))
         stim_return_dur_ms :=
           some (pyTrunc (((target : ℚ) - (s.baseline : ℚ)) / (ret : ℚ) * 1000))
         stim_duration_ms := none
         duration_mode := some mode },
       some .attributeError) := by
  unfold set_stim
  rw [if_neg hrise, if_neg hret]
  simp only [hm1, hm2, hm3, if_false, hnone]

/-- Closed form of `set_stim` for a mode string outside the three branch
conditions, on a session with a previously stored duration `d`: the call
succeeds and silently transmits the stale `d`. -/
theorem set_stim_unknown_mode_stale_eq (s : Session)
    (target rise ret Dms tc td d : ℤ) (surf : PySurfaces) (mode : String)
    (hrise : rise ≠ 0) (hret : ret ≠ 0)
    (hm1 : mode ≠ "fixed_plateau") (hm2 : mode ≠ "fixed_total")
    (hm3 : mode ≠ "fixed_stim") (hsome : s.stim_duration_ms = some d) :
    (set_stim s target rise ret Dms mode tc td surf).1 =
      ["C0" ++ format_temp target,
       "V0" ++ format_temp rise 4,
       "R0" ++ format_temp ret 4,
       "D0" ++ format_ms d,
       "S" ++ surf_string surf] ∧
    (set_stim s target rise ret Dms mode tc td surf).2.2 = none := by
  unfold set_stim
  rw [if_neg hrise, if_neg hret]
  simp only [hm1, hm2, hm3, if_false, hsome]
  exact ⟨by trivial, by trivial⟩

/-- C4 (amended): neither function validates the mode string.  For a mode
outside the recognized set {fixed_stim, fixed_plateau, fixed_total},
`add_stimulation` raises nothing and appends a full step with the raw
duration unchanged; `set_stim` transmits `C0`, `V0` and `R0` regardless,
and then raises `AttributeError` (not `InvalidDurationMode`) if no earlier
call stored a duration, or silently transmits the stale stored duration if
one exists. -/
theorem invalid_duration_mode_amended (mode : String)
    (hm1 : mode ≠ "fixed_plateau") (hm2 : mode ≠ "fixed_total")
    (hm3 : mode ≠ "fixed_stim") :
    (∀ (st : PGen) (T Rr Rt D B w : ℚ) (zs : List ℤ) (tv : ℤ) (td : ℚ),
      Rr ≠ 0 → Rt ≠ 0 →
      (add_stimulation st T Rr Rt D B w zs tv td mode).2 = none ∧
      (add_stimulation st T Rr Rt D B w zs tv td mode).1.n_steps =
        st.n_steps + 1 ∧
      "duration=" ++ fmt3 D ∈
        (add_stimulation st T Rr Rt D B w zs tv td mode).1.protocol) ∧
    (∀ (s : Session) (target rise ret Dms tc td : ℤ) (surf : PySurfaces),
      rise ≠ 0 → ret ≠ 0 →
      (s.stim_duration_ms = none →
        (set_stim s target rise ret Dms mode tc td surf).1 =
          ["C0" ++ format_temp target, "V0" ++ format_temp rise 4,
           "R0" ++ format_temp ret 4] ∧
        (set_stim s target rise ret Dms mode tc td surf).2.2 =
          some .attributeError) ∧
      (∀ d, s.stim_duration_ms = some d →
        (set_stim s target rise ret Dms mode tc td surf).1 =
          ["C0" ++ format_temp target, "V0" ++ format_temp rise 4,
           "R0" ++ format_temp ret 4, "D0" ++ format_ms d,
           "S" ++ surf_string surf] ∧
        (set_stim s target rise ret Dms mode tc td surf).2.2 = none)) := by
  constructor
  · intro st T Rr Rt D B w zs tv td hRr hRt
    rw [add_stimulation_other_mode_eq st T Rr Rt D B w zs tv td mode hRr hRt hm1 hm2]
    refine ⟨rfl, rfl, ?_⟩
    show _ ∈ st.protocol ++ _ ++ _
    refine List.mem_append_right _ ?_
    refine List.mem_flatten.mpr ⟨stim_zone_lines (st.n_steps + 1) 1 zs
      (fmt3 D) (fmt3 T) (fmt3 w) (fmt3 Rr) (fmt3 Rt), ?_, ?_⟩
    · exact List.mem_map_of_mem _ (by norm_num)
    · simp [stim_zone_lines]
  · intro s target rise ret Dms tc td surf hrise hret
    refine ⟨fun hnone => ?_, fun d hsome => set_stim_unknown_mode_stale_eq s
      target rise ret Dms tc td d surf mode hrise hret hm1 hm2 hm3 hsome⟩
    rw [set_stim_unknown_mode_unset_eq s target rise ret Dms tc td surf mode
      hrise hret hm1 hm2 hm3 hnone]
    exact ⟨rfl, rfl⟩

/-- C4 (counterexample): the unrecognized mode string `'bogus'` raises
nothing in `add_stimulation` — a full step is appended (step counter goes
to 1, the unadjusted `duration=10.000` line included), contrary to the
claimed `InvalidDurationMode` abort; and `set_stim` with `'bogus'`
transmits `C0`/`V0`/`R0` before failing with `AttributeError`, not
`InvalidDurationMode`. -/
theorem invalid_duration_mode_counterexample :
    (add_stimulation (pgen_init "p") 42 3 3 10 30 0 [1, 2, 3, 4, 5] 255
        (3 / 10) "bogus").2 = none ∧
    (add_stimulation (pgen_init "p") 42 3 3 10 30 0 [1, 2, 3, 4, 5] 255
        (3 / 10) "bogus").1.n_steps = 1 ∧
    "duration=10.000" ∈ (add_stimulation (pgen_init "p") 42 3 3 10 30 0
        [1, 2, 3, 4, 5] 255 (3 / 10) "bogus").1.protocol ∧
    (set_stim (tcsii_init 30 50 false true).1 42 3 3 10000 "bogus" 255 10
        (.int 0)).1 = ["C0420", "V00030", "R00030"] ∧
    (set_stim (tcsii_init 30 50 false true).1 42 3 3 10000 "bogus" 255 10
        (.int 0)).2.2 = some .attributeError := by
  have h3 : (3 : ℚ) ≠ 0 := by norm_num
  have hb1 : ("bogus" : String) ≠ "fixed_plateau" := by decide
  have hb2 : ("bogus" : String) ≠ "fixed_total" := by decide
  have hb3 : ("bogus" : String) ≠ "fixed_stim" := by decide
  have hfmt : fmt3 (10 : ℚ) = "10.000" := by
    rw [fmt3_of_mul_1000_eq 10 10000 (by norm_num)]
    decide
  have hlive := set_stim_unknown_mode_unset_eq (tcsii_init 30 50 false true).1
    42 3 3 10000 255 10 (.int 0) "bogus" (by decide) (by decide) hb1 hb2 hb3 rfl
  refine ⟨?_, ?_, ?_, ?_, ?_⟩
  · rw [add_stimulation_other_mode_eq (pgen_init "p") 42 3 3 10 30 0
      [1, 2, 3, 4, 5] 255 (3 / 10) "bogus" h3 h3 hb1 hb2]
  · rw [add_stimulation_other_mode_eq (pgen_init "p") 42 3 3 10 30 0
      [1, 2, 3, 4, 5] 255 (3 / 10) "bogus" h3 h3 hb1 hb2]
    rfl
  · rw [add_stimulation_other_mode_eq (pgen_init "p") 42 3 3 10 30 0
      [1, 2, 3, 4, 5] 255 (3 / 10) "bogus" h3 h3 hb1 hb2]
    show _ ∈ (pgen_init "p").protocol ++ _ ++ _
    refine List.mem_append_right _ ?_
    refine List.mem_flatten.mpr ⟨stim_zone_lines 1 1 [1, 2, 3, 4, 5]
      (fmt3 10) (fmt3 42) (fmt3 0) (fmt3 3) (fmt3 3), ?_, ?_⟩
    · exact List.mem_map_of_mem _ (by norm_num)
    · rw [hfmt]
      simp [stim_zone_lines]
  · rw [hlive]
    decide
  · rw [hlive]

/-- C4 (witness): the amended theorem at mode `'bogus'` with concrete
arguments. -/
theorem invalid_duration_mode_amended_witness :
    (("bogus" : String) ≠ "fixed_plateau" ∧ (3 : ℚ) ≠ 0) ∧
    ((add_stimulation (pgen_init "q") 45 3 3 8 30 0 [1, 2] 255 (3 / 10)
        "bogus").2 = none ∧
      (add_stimulation (pgen_init "q") 45 3 3 8 30 0 [1, 2] 255 (3 / 10)
        "bogus").1.n_steps = 1 ∧
      "duration=" ++ fmt3 8 ∈ (add_stimulation (pgen_init "q") 45 3 3 8 30 0
        [1, 2] 255 (3 / 10) "bogus").1.protocol) :=
  ⟨⟨by decide, by norm_num⟩,
    (invalid_duration_mode_amended "bogus" (by decide) (by decide)
      (by decide)).1 (pgen_init "q") 45 3 3 8 30 0 [1, 2] 255 (3 / 10)
      (by norm_num) (by norm_num)⟩

/-! ### C9 — surface selection in `set_stim` -/

theorem surf_string_int (n : ℤ) : surf_string (.int n) = "11111" := rfl

/-- The five characters of the list-surfaces bitmask, one per zone. -/
theorem surf_string_list_data (l : List ℤ) :
    (surf_string (.list l)).data =
      [if l.contains 1 then '1' else '0',
       if l.contains 2 then '1' else '0',
       if l.contains 3 then '1' else '0',
       if l.contains 4 then '1' else '0',
       if l.contains 5 then '1' else '0'] := by
  unfold surf_string
  cases hb1 : l.contains 1 <;> cases hb2 : l.contains 2 <;>
    cases hb3 : l.contains 3 <;> cases hb4 : l.contains 4 <;>
    cases hb5 : l.contains 5 <;>
    simp only [List.foldl_cons, List.foldl_nil, hb1, hb2, hb3, hb4, hb5,
      if_true, if_false, Bool.false_eq_true] <;> rfl

/-- Closed form of `set_stim` under `fixed_stim` with nonzero rates. -/
theorem set_stim_fixed_stim_eq (s : Session) (target rise ret Dms tc td : ℤ)
    (surf : PySurfaces) (hrise : rise ≠ 0) (hret : ret ≠ 0) :
    set_stim s target rise ret Dms "fixed_stim" tc td surf =
      (["C0" ++ format_temp target,
        "V0" ++ format_temp rise 4,
        "R0" ++ format_temp ret 4,
        "D0" ++ format_ms Dms,
        "S" ++ surf_string surf],
       { s with
         stim_set := true
         stim_target_temp := some target
         stim_rise_rate := some rise
         stim_return_rate := some ret
         stim_trigger_code := some tc
         stim_strigger_dur_ms := some td
         stim_rise_dur_ms :=
           some (pyTrunc (((target : ℚ) - (s.baseline : ℚ)) / (rise : ℚ) * 1000))
         stim_return_dur_ms :=
           some (pyTrunc (((target : ℚ) - (s.baseline : ℚ)) / (ret : ℚ) * 1000))
         stim_duration_ms := some Dms
         duration_mode := some "fixed_stim"
         surfaces := some surf
         all_surfaces :=
           some (match surf with | .list _ => false | .int _ => true) },
       none) := by
  unfold set_stim
  rw [if_neg hrise, if_neg hret]
  rfl

/-- C9: in `set_stim`, any non-list `surfaces` value — any integer scalar,
not only the documented sentinel `0` — produces the all-surfaces command
`S11111`; a list produces one bitmask character per zone `1..5`, with
position `i` equal to `'1'` exactly when `i` is a member of the list. -/
theorem set_stim_surfaces_bitmask (s : Session) (target rise ret Dms tc td : ℤ)
    (hrise : rise ≠ 0) (hret : ret ≠ 0) :
    (∀ surf : PySurfaces,
      (set_stim s target rise ret Dms "fixed_stim" tc td surf).1 =
        ["C0" ++ format_temp target, "V0" ++ format_temp rise 4,
         "R0" ++ format_temp ret 4, "D0" ++ format_ms Dms,
         "S" ++ surf_string surf]) ∧
    (∀ n : ℤ, surf_string (.int n) = "11111") ∧
    (∀ (l : List ℤ) (i : ℕ), 1 ≤ i → i ≤ 5 →
      (surf_string (.list l)).data[i - 1]? =
        some (if l.contains (i : ℤ) then '1' else '0')) := by
  refine ⟨fun surf => ?_, fun n => surf_string_int n, fun l i hi1 hi5 => ?_⟩
  · rw [set_stim_fixed_stim_eq s target rise ret Dms tc td surf hrise hret]
  · interval_cases i <;> simp [surf_string_list_data]

/-- C9 (witness): concrete calls with a scalar (3) and with the list
`[2, 4]`; the bitmask for `[2, 4]` has `'1'` exactly at positions 2 and
4. -/
theorem set_stim_surfaces_bitmask_witness :
    ((3 : ℤ) ≠ 0 ∧ (1 : ℕ) ≤ 2 ∧ (2 : ℕ) ≤ 5) ∧
    (set_stim (tcsii_init 30 50 false true).1 42 3 3 10000 "fixed_stim" 255 10
        (.int 3)).1 =
      ["C0" ++ format_temp 42, "V0" ++ format_temp 3 4, "R0" ++ format_temp 3 4,
       "D0" ++ format_ms 10000, "S" ++ surf_string (.int 3)] ∧
    surf_string (.int 3) = "11111" ∧
    (surf_string (.list [2, 4])).data[2 - 1]? =
      some (if ([2, 4] : List ℤ).contains ((2 : ℕ) : ℤ) then '1' else '0') :=
  ⟨⟨by decide, by decide, by decide⟩,
    (set_stim_surfaces_bitmask (tcsii_init 30 50 false true).1 42 3 3 10000 255
      10 (by decide) (by decide)).1 (.int 3),
    (set_stim_surfaces_bitmask (tcsii_init 30 50 false true).1 42 3 3 10000 255
      10 (by decide) (by decide)).2.1 3,
    (set_stim_surfaces_bitmask (tcsii_init 30 50 false true).1 42 3 3 10000 255
      10 (by decide) (by decide)).2.2 [2, 4] 2 (by decide) (by decide)⟩

/-! ### C3 — the sampling loop of `trigger_and_save_temp` -/

/-- `set_stim` never assigns `stim_total_duration_ms`, on any path. -/
theorem set_stim_preserves_total_duration (s : Session)
    (target rise ret Dms tc td : ℤ) (mode : String) (surf : PySurfaces) :
    (set_stim s target rise ret Dms mode tc td surf).2.1.stim_total_duration_ms
      = s.stim_total_duration_ms := by
  unfold set_stim
  by_cases h1 : rise = 0
  · rw [if_pos h1]
  · rw [if_neg h1]
    by_cases h2 : ret = 0
    · rw [if_pos h2]
    · rw [if_neg h2]
      by_cases hm1 : mode = "fixed_total"
      · subst hm1; rfl
      · by_cases hm2 : mode = "fixed_stim"
        · subst hm2; rfl
        · simp only [hm1, hm2, if_false]
          rcases hd : s.stim_duration_ms with _ | d <;> simp only [hd]

/-- C3: the claim's polling loop never runs.  The loop guard of
`trigger_and_save_temp` reads `self.stim_total_duration_ms`, an attribute
that no method of the class ever assigns (`set_stim` stores
`stim_duration_ms` instead): it is `none` on a fresh session and preserved
by every `set_stim` call, so on every reachable session the method writes
the fire command `L` and then raises `AttributeError` — no sample matrix is
ever produced. -/
theorem trigger_and_save_temp_attribute_error :
    (∀ (b mt : ℤ) (bp ti : Bool),
      (tcsii_init b mt bp ti).1.stim_total_duration_ms = none) ∧
    (∀ (s : Session) (target rise ret Dms tc td : ℤ) (mode : String)
      (surf : PySurfaces),
      (set_stim s target rise ret Dms mode tc td surf).2.1.stim_total_duration_ms
        = s.stim_total_duration_ms) ∧
    (∀ s : Session, s.beep = false → s.stim_total_duration_ms = none →
      trigger_and_save_temp s = (["L"], some .attributeError)) := by
  refine ⟨fun b mt bp ti => rfl,
    fun s target rise ret Dms tc td mode surf =>
      set_stim_preserves_total_duration s target rise ret Dms tc td mode surf,
    fun s hbeep hnone => ?_⟩
  unfold trigger_and_save_temp
  rw [hbeep, hnone]
  rfl

/-- C3 (witness): the theorem's loop-guard part applied to a session armed
by `set_stim` in `fixed_stim` mode on a fresh connection. -/
theorem trigger_and_save_temp_attribute_error_witness :
    ((set_stim (tcsii_init 30 50 false true).1 42 3 3 10000 "fixed_stim" 255 10
        (.int 0)).2.1.beep = false ∧
      (set_stim (tcsii_init 30 50 false true).1 42 3 3 10000 "fixed_stim" 255 10
        (.int 0)).2.1.stim_total_duration_ms = none) ∧
    trigger_and_save_temp (set_stim (tcsii_init 30 50 false true).1 42 3 3
        10000 "fixed_stim" 255 10 (.int 0)).2.1 =
      (["L"], some .attributeError) :=
  ⟨⟨rfl, rfl⟩,
    trigger_and_save_temp_attribute_error.2.2
      (set_stim (tcsii_init 30 50 false true).1 42 3 3 10000 "fixed_stim" 255
        10 (.int 0)).2.1 rfl rfl⟩

/-! ### C7 — per-zone fields of `set_constant_temp` -/

/-- C7: the SET_CONST_TEMP step does carry per-zone keys for the
temperature (`constTemp<z>=`), enable flag (`enableConsTemp<z>=`, set to 1
exactly for the requested zones) and hold duration (`ConstTempHold<z>=`),
but not for the speed: line 407 of the source writes the bare key
`constTempSpeed=` and concatenates the zone number into the value, so a
call with speed 2.0 emits `constTempSpeed=12.000`, `constTempSpeed=22.000`,
... and no per-zone speed key `constTempSpeed<z>=2.000` at all. -/
theorem set_constant_temp_speed_key_bug :
    "constTemp1=35.000" ∈
      (set_constant_temp (pgen_init "p") 35 10 2 [1, 3]).protocol ∧
    "ConstTempHold1=10.000" ∈
      (set_constant_temp (pgen_init "p") 35 10 2 [1, 3]).protocol ∧
    "enableConsTemp1=1" ∈
      (set_constant_temp (pgen_init "p") 35 10 2 [1, 3]).protocol ∧
    "enableConsTemp3=1" ∈
      (set_constant_temp (pgen_init "p") 35 10 2 [1, 3]).protocol ∧
    "enableConsTemp2=0" ∈
      (set_constant_temp (pgen_init "p") 35 10 2 [1, 3]).protocol ∧
    "constTempSpeed=12.000" ∈
      (set_constant_temp (pgen_init "p") 35 10 2 [1, 3]).protocol ∧
    (∀ z ∈ ([1, 2, 3, 4, 5] : List ℤ),
      ("constTempSpeed" ++ intStr z ++ "=2.000") ∉
        (set_constant_temp (pgen_init "p") 35 10 2 [1, 3]).protocol) := by
  have h35 : fmt3 (35 : ℚ) = "35.000" := by
    rw [fmt3_of_mul_1000_eq 35 35000 (by norm_num)]
    decide
  have h10 : fmt3 (10 : ℚ) = "10.000" := by
    rw [fmt3_of_mul_1000_eq 10 10000 (by norm_num)]
    decide
  have h2 : fmt3 (2 : ℚ) = "2.000" := by
    rw [fmt3_of_mul_1000_eq 2 2000 (by norm_num)]
    decide
  simp only [set_constant_temp, pgen_init, h35, h10, h2]
  decide

/-! ### C6 — export idempotence and the step-count header -/

/-- Every builder operation that succeeds bumps the step counter by exactly
one and only appends to the protocol lines. -/
theorem applyPOp_ok (st st1 : PGen) (op : POp)
    (h : applyPOp st op = (st1, none)) :
    st1.n_steps = st.n_steps + 1 ∧ ∃ ext, st1.protocol = st.protocol ++ ext := by
  cases op with
  | stim T Rr Rt D b w zs tv td mode =>
    have h' : add_stimulation st T Rr Rt D b w zs tv td mode = (st1, none) := h
    unfold add_stimulation at h'
    by_cases h1 : Rr = 0
    · rw [if_pos h1] at h'
      simp at h'
    · rw [if_neg h1] at h'
      by_cases h2 : Rt = 0
      · rw [if_pos h2] at h'
        simp at h'
      · rw [if_neg h2] at h'
        injection h' with hst _
        subst hst
        exact ⟨rfl, _, List.append_assoc st.protocol _ _⟩
  | waitTrig =>
    have h' : (add_wait_trigger_in st, (none : Option PyErr)) = (st1, none) := h
    injection h' with hst _
    subst hst
    exact ⟨rfl, _, rfl⟩
  | base b adj =>
    have h' : (set_baseline st b adj, (none : Option PyErr)) = (st1, none) := h
    injection h' with hst _
    subst hst
    exact ⟨rfl, _, rfl⟩
  | constTemp t d sp zs =>
    have h' : (set_constant_temp st t d sp zs, (none : Option PyErr)) = (st1, none) := h
    injection h' with hst _
    subst hst
    exact ⟨rfl, _, rfl⟩

/-- A successful run of builder operations adds exactly one step per
operation and only appends lines. -/
theorem runPOps_ok : ∀ (ops : List POp) (st st1 : PGen),
    runPOps st ops = (st1, none) →
    st1.n_steps = st.n_steps + ops.length ∧
    ∃ ext, st1.protocol = st.protocol ++ ext := by
  intro ops
  induction ops with
  | nil =>
    intro st st1 h
    unfold runPOps at h
    injection h with h1 _
    subst h1
    exact ⟨by simp, [], by simp⟩
  | cons op ops ih =>
    intro st st1 h
    unfold runPOps at h
    rcases happ : applyPOp st op with ⟨stm, e⟩
    rw [happ] at h
    cases e with
    | some err => simp at h
    | none =>
      obtain ⟨hn, ext, hp⟩ := ih stm st1 h
      obtain ⟨hn1, ext1, hp1⟩ := applyPOp_ok st stm op happ
      refine ⟨by rw [List.length_cons]; omega, ext1 ++ ext, ?_⟩
      rw [hp, hp1, List.append_assoc]

/-- C6: after any successful sequence of builder operations
(`add_stimulation`, `add_wait_trigger_in`, `set_baseline`,
`set_constant_temp`) starting from a fresh generator, the exported
`stepsNumber=` header (line index 1) equals the number of appended step
blocks, and calling `export_protocol` twice with no appends in between
yields byte-identical serialized output. -/
theorem export_idempotent_and_step_count (f : String) (r : ℤ)
    (ops : List POp) (st : PGen) (h : runPOps (pgen_init f r) ops = (st, none)) :
    st.n_steps = ops.length ∧
    (export_protocol st).2.protocol[1]? =
      some ("stepsNumber=" ++ natStr ops.length) ∧
    (export_protocol (export_protocol st).2).1 = (export_protocol st).1 := by
  obtain ⟨hn, ext, hp⟩ := runPOps_ok ops (pgen_init f r) st h
  have hn' : st.n_steps = ops.length := by
    rw [hn]
    simp [pgen_init]
  have hlen : 1 < st.protocol.length := by
    rw [hp, List.length_append]
    have h4 : (pgen_init f r).protocol.length = 4 := rfl
    omega
  refine ⟨hn', ?_, ?_⟩
  · show (st.protocol.set 1 ("stepsNumber=" ++ natStr st.n_steps))[1]? = _
    rw [List.getElem?_set, if_pos rfl, if_pos hlen, hn']
  · unfold export_protocol
    simp only [List.set_set]

/-- C6 (witness): two wait-for-trigger steps appended then exported. -/
theorem export_idempotent_and_step_count_witness :
    runPOps (pgen_init "w" 1) [.waitTrig, .waitTrig] =
      ((runPOps (pgen_init "w" 1) [.waitTrig, .waitTrig]).1, none) ∧
    ((runPOps (pgen_init "w" 1) [.waitTrig, .waitTrig]).1.n_steps =
        [POp.waitTrig, POp.waitTrig].length ∧
      (export_protocol (runPOps (pgen_init "w" 1)
          [.waitTrig, .waitTrig]).1).2.protocol[1]? =
        some ("stepsNumber=" ++ natStr [POp.waitTrig, POp.waitTrig].length) ∧
      (export_protocol (export_protocol (runPOps (pgen_init "w" 1)
          [.waitTrig, .waitTrig]).1).2).1 =
        (export_protocol (runPOps (pgen_init "w" 1) [.waitTrig, .waitTrig]).1).1) :=
  ⟨rfl, export_idempotent_and_step_count "w" 1 [.waitTrig, .waitTrig]
    (runPOps (pgen_init "w" 1) [.waitTrig, .waitTrig]).1 rfl⟩

/-! ### C10 — `generate_from_lists` with an empty zones list -/

/-- C10: `generate_from_lists` inspects `zones[0]` to decide
scalar-versus-list broadcasting, so an empty `zones` raises `IndexError`
before any wait or stimulation step is appended: the builder state is
returned unchanged.  This holds for both representable empty-zones values
and regardless of whether the temperatures were given as a list or as a
scalar with a (truthy) trial count. -/
theorem generate_from_lists_empty_zones (st : PGen) (ts : List ℚ) (t : ℚ)
    (dur rr rrt : PyNumOrList) (b w : ℚ) (tv : PyIntOrList) (tod : ℚ)
    (mode : String) (k : ℤ) (hk : k ≠ 0) :
    generate_from_lists st (.list ts) dur (.flat []) rr rrt b w tv tod mode
        none = (st, some .indexError) ∧
    generate_from_lists st (.list ts) dur (.nested []) rr rrt b w tv tod mode
        none = (st, some .indexError) ∧
    generate_from_lists st (.scalar t) dur (.flat []) rr rrt b w tv tod mode
        (some k) = (st, some .indexError) ∧
    generate_from_lists st (.scalar t) dur (.nested []) rr rrt b w tv tod mode
        (some k) = (st, some .indexError) := by
  refine ⟨rfl, rfl, ?_, ?_⟩
  · unfold generate_from_lists
    simp only [hk, if_false]
  · unfold generate_from_lists
    simp only [hk, if_false]

/-- C10 (witness): concrete calls with `zones = []`. -/
theorem generate_from_lists_empty_zones_witness :
    (5 : ℤ) ≠ 0 ∧
    (generate_from_lists (pgen_init "g") (.list [45]) (.scalar 10) (.flat [])
        (.scalar 3) (.scalar 3) 30 0 (.scalar 255) (1 / 10) "fixed_plateau"
        none = (pgen_init "g", some .indexError) ∧
      generate_from_lists (pgen_init "g") (.list [45]) (.scalar 10)
        (.nested []) (.scalar 3) (.scalar 3) 30 0 (.scalar 255) (1 / 10)
        "fixed_plateau" none = (pgen_init "g", some .indexError) ∧
      generate_from_lists (pgen_init "g") (.scalar 45) (.scalar 10) (.flat [])
        (.scalar 3) (.scalar 3) 30 0 (.scalar 255) (1 / 10) "fixed_plateau"
        (some 5) = (pgen_init "g", some .indexError) ∧
      generate_from_lists (pgen_init "g") (.scalar 45) (.scalar 10)
        (.nested []) (.scalar 3) (.scalar 3) 30 0 (.scalar 255) (1 / 10)
        "fixed_plateau" (some 5) = (pgen_init "g", some .indexError)) :=
  ⟨by decide,
    generate_from_lists_empty_zones (pgen_init "g") [45] 45 (.scalar 10)
      (.scalar 3) (.scalar 3) 30 0 (.scalar 255) (1 / 10) "fixed_plateau" 5
      (by decide)⟩
